import Mathlib

/-!
Verification of the CSR-assembly core of the `eidas` Go package
(`csr.go`): extension builders, subject builder, request assembler and
key provisioning, shallowly embedded in Lean 4.

Conventions of the embedding:
* `asn1.ObjectIdentifier` is a list of naturals; `ObjectIdentifier.Equal`
  is list equality.
* Byte slices are `List Nat` (each element a byte value).
* Go's `(value, error)` returns become `Except String`; the `error`
  messages reproduce the `fmt.Errorf` format strings of the source.
* The external `qcstatements` package (certificate-type OIDs, competent
  authority lookup, QC-statement serialization) and the platform
  crypto/ASN.1 primitives (`asn1.Marshal` of an RDN sequence or an OID
  sequence, `x509.CreateCertificateRequest`, `sha1.Sum`,
  `x509.MarshalPKCS1PublicKey`, `rsa.GenerateKey`) are not part of the
  core under verification; they enter as explicit parameters gathered in
  an `Env` record, so theorems quantify over their behaviour.
* Machine integers (`uint16`, `uint`) are naturals reduced mod `2^16`
  resp. `2^64` where overflow matters; Go's shift semantics (a shift by
  at least the bit width yields 0) is modelled explicitly.
-/

namespace Eidas

/-- `asn1.ObjectIdentifier`: a sequence of arc values. -/
abbrev ObjectIdentifier := List Nat

/-- `%v` formatting of an `asn1.ObjectIdentifier` (its `String()` method):
dot-separated arcs. -/
def oidString (t : ObjectIdentifier) : String :=
  String.intercalate "." (t.map toString)

/-- Modelled from the spec: the certificate-type OID for QWAC from the
external `qcstatements` package (`qcstatements.QWACType`, the ETSI
qcType arc for web-authentication certificates). The core only tests
these constants for equality; all that matters is that the two are
distinct OIDs. -/
def QWACType : ObjectIdentifier := [0, 4, 0, 1862, 1, 6, 3]

/-- Modelled from the spec: the certificate-type OID for QSEAL from the
external `qcstatements` package (`qcstatements.QSEALType`). -/
def QSEALType : ObjectIdentifier := [0, 4, 0, 1862, 1, 6, 2]

/-- `x509.KeyUsage` is an integer bit-flag type; the embedding keeps the
numeric values of the Go constants. -/
abbrev KeyUsage := Nat

/-- `x509.KeyUsageDigitalSignature = 1`. -/
def keyUsageDigitalSignature : KeyUsage := 1

/-- `x509.KeyUsageContentCommitment = 2` (also known as NonRepudiation). -/
def keyUsageContentCommitment : KeyUsage := 2

/-- `x509.KeyUsageDecipherOnly = 256`. -/
def keyUsageDecipherOnly : KeyUsage := 256

/-- `pkix.Extension`: OID, criticality flag, encoded payload. -/
structure Extension where
  oid : ObjectIdentifier
  critical : Bool
  value : List Nat
  deriving Repr, DecidableEq

/-- `keyUsageForType` from `csr.go`: the ordered usage-flag list for a
certificate-type OID. -/
def keyUsageForType (t : ObjectIdentifier) : Except String (List KeyUsage) :=
  if t = QWACType then
    .ok [keyUsageDigitalSignature]
  else if t = QSEALType then
    .ok [keyUsageDigitalSignature, keyUsageContentCommitment]
  else
    .error ("unknown QC type: " ++ oidString t)

/-- Go `uint` subtraction `8 - uint(usage)` (wraps mod `2^64`). -/
def goUintSub8 (usage : Nat) : Nat := (2 ^ 64 + 8 - usage) % 2 ^ 64

/-- Go `uint16(1) << s` for `s : uint`: a shift by 16 or more yields 0,
otherwise the result is reduced mod `2^16`. -/
def goShlUint16 (v s : Nat) : Nat :=
  if 16 ≤ s then 0 else (v <<< s) % 2 ^ 16

/-- The accumulation loop of `keyUsageExtension`:
`x |= uint16(1) << (8 - uint(usage))` over the usage list, starting
from `x = 0`. -/
def keyUsageBits (usages : List KeyUsage) : Nat :=
  usages.foldl (fun x usage => x ||| goShlUint16 1 (goUintSub8 usage)) 0

/-- `binary.LittleEndian.PutUint16`: the two bytes of `x`, low first. -/
def putUint16LE (x : Nat) : List Nat := [x % 256, x / 256 % 256]

/-- `asn1.BitString`: content bytes plus a declared bit length. -/
structure BitString where
  bytes : List Nat
  bitLength : Nat
  deriving Repr, DecidableEq

/-- DER length octets (`encoding/asn1` length encoding): short form below
128, long form otherwise. -/
def base256Digits (n : Nat) : List Nat :=
  if h : n = 0 then []
  else base256Digits (n / 256) ++ [n % 256]
termination_by n
decreasing_by exact Nat.div_lt_self (Nat.pos_of_ne_zero h) (by decide)

/-- DER length octets for a content length `n`. -/
def derLengthBytes (n : Nat) : List Nat :=
  if n < 128 then [n]
  else (128 + (base256Digits n).length) :: base256Digits n

/-- `asn1.Marshal` of a `BitString` (the `bitStringEncoder` of
`encoding/asn1`): tag `0x03`, length, one unused-bits octet computed as
`(8 - BitLength%8) % 8`, then the content bytes. -/
def marshalBitString (b : BitString) : List Nat :=
  3 :: derLengthBytes (b.bytes.length + 1) ++
    ((8 - b.bitLength % 8) % 8 :: b.bytes)

/-- `keyUsageExtension` from `csr.go`: packs the usage flags into a
`uint16`, lays it out little-endian, and wraps it as a bitstring whose
`BitLength` field is the constant `int(x509.KeyUsageDecipherOnly)`;
OID 2.5.29.15, critical. -/
def keyUsageExtension (usages : List KeyUsage) : Extension :=
  let x := keyUsageBits usages
  let b := putUint16LE x
  let bits : BitString := { bytes := b, bitLength := keyUsageDecipherOnly }
  { oid := [2, 5, 29, 15], critical := true, value := marshalBitString bits }

/-- `tLSWWWServerAuthUsage` from `csr.go`. -/
def tLSWWWServerAuthUsage : ObjectIdentifier := [1, 3, 6, 1, 5, 5, 7, 3, 1]

/-- `tLSWWWClientAuthUsage` from `csr.go`. -/
def tLSWWWClientAuthUsage : ObjectIdentifier := [1, 3, 6, 1, 5, 5, 7, 3, 2]

/-- `extendedKeyUsageForType` from `csr.go`. -/
def extendedKeyUsageForType (t : ObjectIdentifier) :
    Except String (List ObjectIdentifier) :=
  if t = QWACType then
    .ok [tLSWWWServerAuthUsage, tLSWWWClientAuthUsage]
  else if t = QSEALType then
    .ok []
  else
    .error ("unknown QC type: " ++ oidString t)

/-- Whether a Go `(value, error)` call succeeded (error was `nil`). -/
def exceptIsOk {ε α : Type} : Except ε α → Bool
  | .ok _ => true
  | .error _ => false

/-- `extendedKeyUsageExtension` from `csr.go`: the OID-sequence payload is
produced by the platform's `asn1.Marshal`, taken here as a parameter;
OID 2.5.29.37, non-critical. -/
def extendedKeyUsageExtension (marshalOIDSequence : List ObjectIdentifier → List Nat)
    (usages : List ObjectIdentifier) : Extension :=
  { oid := [2, 5, 29, 37], critical := false, value := marshalOIDSequence usages }

/-- `asn1.Marshal` of a `[]byte`: a DER OCTET STRING, tag `0x04`. -/
def derOctetString (bs : List Nat) : List Nat :=
  4 :: derLengthBytes bs.length ++ bs

/-- `rsa.PublicKey`: modulus and public exponent. -/
structure RSAPublicKey where
  n : Nat
  e : Nat
  deriving Repr, DecidableEq

/-- The public component a `crypto.Signer` reports: either an
`*rsa.PublicKey` or some other key type, carried with the string `%T`
prints for it (e.g. `*ecdsa.PublicKey`). -/
inductive PublicKey where
  | rsa (key : RSAPublicKey)
  | other (typeName : String)
  deriving Repr, DecidableEq

/-- A `crypto.Signer`, modelled by the public key its `Public()` method
returns (the core never calls its signing method itself; signing happens
inside the platform's `x509.CreateCertificateRequest`). -/
structure Signer where
  pub : PublicKey
  deriving Repr, DecidableEq

/-- `rsa.PrivateKey`, modelled by its public component. -/
structure RSAPrivateKey where
  pub : RSAPublicKey
  deriving Repr, DecidableEq

/-- `(*rsa.PrivateKey).Public()` wrapped as a `crypto.Signer`. -/
def RSAPrivateKey.toSigner (k : RSAPrivateKey) : Signer :=
  { pub := .rsa k.pub }

/-- `pkix.AttributeTypeAndValue` (string-valued, as used by
`buildSubject`). -/
structure AttributeTypeAndValue where
  type : ObjectIdentifier
  value : String
  deriving Repr, DecidableEq

/-- `qcstatements.Role`: opaque, forwarded to the external encoder. -/
abbrev Role := String

/-- `qcstatements.CompetentAuthority`: name and ID, opaque to the core. -/
structure CompetentAuthority where
  name : String
  id : String
  deriving Repr, DecidableEq

/-- `x509.SignatureAlgorithm` (only the value the core uses). -/
inductive SignatureAlgorithm where
  | sha256WithRSA
  deriving Repr, DecidableEq

/-- `x509.PublicKeyAlgorithm` (only the value the core uses). -/
inductive PublicKeyAlgorithm where
  | rsa
  deriving Repr, DecidableEq

/-- The fields of `x509.CertificateRequest` the core sets or that the
built-in option touches. -/
structure CertificateRequest where
  version : Nat
  rawSubject : List Nat
  signatureAlgorithm : SignatureAlgorithm
  publicKeyAlgorithm : PublicKeyAlgorithm
  extraExtensions : List Extension
  dnsNames : List String
  deriving Repr, DecidableEq

/-- `CertificateOption`: a request-mutating function. -/
abbrev CertificateOption := CertificateRequest → CertificateRequest

/-- `WithDNSName` from `csr.go`: appends a domain to the request's
subject-alternative-name list. -/
def withDNSName (domain : String) : CertificateOption :=
  fun req => { req with dnsNames := req.dnsNames ++ [domain] }

/-- The external services and platform primitives `csr.go` calls,
gathered as parameters of the embedding: the `qcstatements` package's
competent-authority lookup and QC-statement serializer, and the
platform's ASN.1/X.509/SHA-1 primitives. -/
structure Env where
  competentAuthorityForCountryCode : String → Except String CompetentAuthority
  serialize : List Role → CompetentAuthority → ObjectIdentifier → Except String (List Nat)
  marshalRDNSequence : List AttributeTypeAndValue → Except String (List Nat)
  marshalOIDSequence : List ObjectIdentifier → List Nat
  marshalPKCS1PublicKey : RSAPublicKey → List Nat
  sha1Sum : List Nat → List Nat
  createCertificateRequest : CertificateRequest → Signer → Except String (List Nat)

/-- `subjectKeyIdentifier` from `csr.go`: the SHA-1 digest of the PKCS#1
DER encoding of the RSA public key, wrapped as an octet string;
OID 2.5.29.14, non-critical. -/
def subjectKeyIdentifier (env : Env) (key : RSAPublicKey) : Extension :=
  { oid := [2, 5, 29, 14], critical := false,
    value := derOctetString (env.sha1Sum (env.marshalPKCS1PublicKey key)) }

/-- `QCStatementsExt` from `csr.go`. -/
def QCStatementsExt : ObjectIdentifier := [1, 3, 6, 1, 5, 5, 7, 1, 3]

/-- `qcStatementsExtension` from `csr.go`: wraps the serialized
QC-statement payload, non-critical. -/
def qcStatementsExtension (data : List Nat) : Extension :=
  { oid := QCStatementsExt, critical := false, value := data }

/-- `oidCountryCode` from `csr.go`. -/
def oidCountryCode : ObjectIdentifier := [2, 5, 4, 6]

/-- `oidOrganizationName` from `csr.go`. -/
def oidOrganizationName : ObjectIdentifier := [2, 5, 4, 10]

/-- `oidOrganizationID` from `csr.go`. -/
def oidOrganizationID : ObjectIdentifier := [2, 5, 4, 97]

/-- `oidCommonName` from `csr.go`. -/
def oidCommonName : ObjectIdentifier := [2, 5, 4, 3]

/-- The `pkix.Name.ExtraNames` list `buildSubject` constructs (its
`ToRDNSequence` keeps these attributes in order, one per RDN). The
parameter order follows the source's signature
`buildSubject(countryCode, orgName, commonName, orgID)`. -/
def buildSubjectAttributes (countryCode orgName commonName orgID : String) :
    List AttributeTypeAndValue :=
  [ { type := oidCountryCode, value := countryCode },
    { type := oidOrganizationName, value := orgName },
    { type := oidOrganizationID, value := orgID },
    { type := oidCommonName, value := commonName } ]

/-- `buildSubject` from `csr.go`: marshals the four-attribute RDN
sequence via the platform encoder. -/
def buildSubject (env : Env) (countryCode orgName commonName orgID : String) :
    Except String (List Nat) :=
  env.marshalRDNSequence (buildSubjectAttributes countryCode orgName commonName orgID)

/-- The request-assembly body of `GenerateCSRWithKey` (everything after
the RSA key-type check and before `x509.CreateCertificateRequest`):
competent-authority lookup, QC-statement serialization, both usage
lookups, the extension list, the subject, the request fields, and the
option fold, in the source's order. -/
def buildCSRRequest (env : Env) (countryCode orgName orgID commonName : String)
    (roles : List Role) (qcType : ObjectIdentifier) (pub : RSAPublicKey)
    (opts : List CertificateOption) : Except String CertificateRequest :=
  match env.competentAuthorityForCountryCode countryCode with
  | .error e => .error ("eidas: " ++ e)
  | .ok ca =>
  match env.serialize roles ca qcType with
  | .error e => .error ("eidas: " ++ e)
  | .ok qc =>
  match keyUsageForType qcType with
  | .error e => .error e
  | .ok keyUsage =>
  match extendedKeyUsageForType qcType with
  | .error e => .error e
  | .ok extendedKeyUsage =>
  let extensions := [keyUsageExtension keyUsage]
  let extensions :=
    if extendedKeyUsage.length ≠ 0 then
      extensions ++ [extendedKeyUsageExtension env.marshalOIDSequence extendedKeyUsage]
    else extensions
  let extensions :=
    extensions ++ [subjectKeyIdentifier env pub, qcStatementsExtension qc]
  match buildSubject env countryCode orgName commonName orgID with
  | .error e => .error ("failed to build CSR subject: " ++ e)
  | .ok subject =>
  let req : CertificateRequest :=
    { version := 0
      rawSubject := subject
      signatureAlgorithm := .sha256WithRSA
      publicKeyAlgorithm := .rsa
      extraExtensions := extensions
      dnsNames := [] }
  .ok (opts.foldl (fun r opt => opt r) req)

/-- `GenerateCSRWithKey` from `csr.go`: the RSA key-type check comes
first; then the request is assembled (`buildCSRRequest`) and handed to
the platform signer. -/
def generateCSRWithKey (env : Env) (countryCode orgName orgID commonName : String)
    (roles : List Role) (qcType : ObjectIdentifier) (priv : Signer)
    (opts : List CertificateOption) : Except String (List Nat) :=
  match priv.pub with
  | .other typeName =>
      .error ("only RSA keys are currently supported but got: " ++ typeName)
  | .rsa pub =>
    match buildCSRRequest env countryCode orgName orgID commonName roles qcType pub opts with
    | .error e => .error e
    | .ok req =>
      match env.createCertificateRequest req priv with
      | .error e => .error ("failed to generate csr: " ++ e)
      | .ok csr => .ok csr

/-- The Go triple `([]byte, *rsa.PrivateKey, error)` returned by
`GenerateCSR`, with `nil` as `none`. -/
structure GenerateCSRResult where
  csr : Option (List Nat)
  key : Option RSAPrivateKey
  err : Option String
  deriving Repr, DecidableEq

/-- `GenerateCSR` from `csr.go`: generates a fresh RSA key of 2048 bits
(the platform generator `rsa.GenerateKey` enters as the parameter
`generateKey`, applied to the bit size), then delegates to
`GenerateCSRWithKey` with the same parameters and options. -/
def generateCSR (generateKey : Nat → Except String RSAPrivateKey) (env : Env)
    (countryCode orgName orgID commonName : String)
    (roles : List Role) (qcType : ObjectIdentifier)
    (opts : List CertificateOption) : GenerateCSRResult :=
  match generateKey 2048 with
  | .error e =>
      { csr := none, key := none, err := some ("failed to generate key pair: " ++ e) }
  | .ok key =>
    match generateCSRWithKey env countryCode orgName orgID commonName roles qcType
        key.toSigner opts with
    | .error e => { csr := none, key := none, err := some e }
    | .ok csr => { csr := some csr, key := some key, err := none }

/-- A concrete, everything-succeeds environment used to instantiate
witnesses. -/
def testEnv : Env :=
  { competentAuthorityForCountryCode :=
      fun _ => .ok { name := "Financial Conduct Authority", id := "GB-FCA" }
    serialize := fun _ _ _ => .ok [48, 3, 1, 1, 0]
    marshalRDNSequence := fun _ => .ok [48, 0]
    marshalOIDSequence := fun _ => [48, 0]
    marshalPKCS1PublicKey := fun _ => [48, 1]
    sha1Sum := fun _ => List.replicate 20 0
    createCertificateRequest := fun _ _ => .ok [99] }

/-- A concrete RSA private key for witnesses. -/
def testKey : RSAPrivateKey := { pub := { n := 91, e := 3 } }

/-- The bit length a DER-encoded BIT STRING declares: for
`tag :: len :: unusedBits :: content`, eight bits per content octet
minus the unused-bits octet. -/
def derBitStringDeclaredBits (v : List Nat) : Nat :=
  match v with
  | _tag :: len :: unusedBits :: _ => 8 * (len - 1) - unusedBits
  | _ => 0

/-- A zero-valued request, used only as the `getD` fallback below. -/
def defaultCertificateRequest : CertificateRequest :=
  { version := 0, rawSubject := [], signatureAlgorithm := .sha256WithRSA,
    publicKeyAlgorithm := .rsa, extraExtensions := [], dnsNames := [] }

/-- A concrete successful QWAC assembly (one DNS-name option). -/
def testReqQWAC : CertificateRequest :=
  (buildCSRRequest testEnv "GB" "Foo Org" "Foo Org ID" "Foo Name" ["PSP_AI"]
      QWACType testKey.pub [withDNSName "foo.example.com"]).toOption.getD
    defaultCertificateRequest

/-- A concrete successful QSEAL assembly (no options). -/
def testReqQSEAL : CertificateRequest :=
  (buildCSRRequest testEnv "GB" "Foo Org" "Foo Org ID" "Foo Name" ["PSP_AI"]
      QSEALType testKey.pub []).toOption.getD defaultCertificateRequest

/-- Folding options over a request preserves any field that every option
preserves. -/
theorem foldl_opts_preserve {α : Type} (g : CertificateRequest → α)
    (opts : List CertificateOption)
    (h : ∀ opt ∈ opts, ∀ r, g (opt r) = g r) :
    ∀ req : CertificateRequest,
      g (opts.foldl (fun r opt => opt r) req) = g req := by
  induction opts with
  | nil => intro req; rfl
  | cons o rest ih =>
    intro req
    rw [List.foldl_cons,
      ih (fun opt hm r => h opt (List.mem_cons_of_mem _ hm) r),
      h o (List.mem_cons_self o rest)]

end Eidas

namespace Eidas

/-- C1: `keyUsageForType` maps QWAC to exactly `[DigitalSignature]`,
QSEAL to exactly `[DigitalSignature, NonRepudiation]` in that order, and
returns an unsupported-certificate-type error (with no list) on every
other OID. -/
theorem keyUsageForType_correct :
    keyUsageForType QWACType = .ok [keyUsageDigitalSignature]
    ∧ keyUsageForType QSEALType =
        .ok [keyUsageDigitalSignature, keyUsageContentCommitment]
    ∧ ∀ t : ObjectIdentifier, t ≠ QWACType → t ≠ QSEALType →
        keyUsageForType t = .error ("unknown QC type: " ++ oidString t) := by
  refine ⟨rfl, rfl, ?_⟩
  intro t h1 h2
  unfold keyUsageForType
  rw [if_neg h1, if_neg h2]

/-- Witness for C1: the error branch at the concrete OID 1.2.3. -/
theorem keyUsageForType_correct_witness :
    keyUsageForType [1, 2, 3] = .error ("unknown QC type: " ++ oidString [1, 2, 3]) :=
  keyUsageForType_correct.2.2 [1, 2, 3] (by decide) (by decide)

/-- C7: `keyUsageForType` fails on a certificate-type OID exactly when
`extendedKeyUsageForType` does — both accept precisely {QWAC, QSEAL}. -/
theorem keyUsage_extendedKeyUsage_consistent :
    ∀ t : ObjectIdentifier,
      exceptIsOk (keyUsageForType t) = exceptIsOk (extendedKeyUsageForType t) := by
  intro t
  by_cases h1 : t = QWACType
  · subst h1; rfl
  · by_cases h2 : t = QSEALType
    · subst h2; rfl
    · unfold keyUsageForType extendedKeyUsageForType
      rw [if_neg h1, if_neg h2, if_neg h1, if_neg h2]
      rfl

/-- C5: `GenerateCSRWithKey` rejects every signing key whose public
component is not RSA with an error naming the concrete type found, and
returns no CSR bytes. The environment (competent-authority lookup,
serializer, marshaller, signer) is universally quantified, so the result
does not depend on any later step: the key-type check comes first. -/
theorem generateCSRWithKey_rejects_non_rsa (env : Env)
    (countryCode orgName orgID commonName : String) (roles : List Role)
    (qcType : ObjectIdentifier) (priv : Signer) (opts : List CertificateOption)
    (typeName : String) (h : priv.pub = .other typeName) :
    generateCSRWithKey env countryCode orgName orgID commonName roles qcType priv opts =
      .error ("only RSA keys are currently supported but got: " ++ typeName) := by
  unfold generateCSRWithKey
  rw [h]

/-- Witness for C5: the ECDSA key of the repository's own test. -/
theorem generateCSRWithKey_rejects_non_rsa_witness :
    generateCSRWithKey testEnv "GB" "Foo Org" "Foo Org ID" "Foo Name" ["PSP_AI"]
        QWACType { pub := .other "*ecdsa.PublicKey" } [] =
      .error ("only RSA keys are currently supported but got: " ++ "*ecdsa.PublicKey") :=
  generateCSRWithKey_rejects_non_rsa testEnv "GB" "Foo Org" "Foo Org ID" "Foo Name"
    ["PSP_AI"] QWACType { pub := .other "*ecdsa.PublicKey" } [] "*ecdsa.PublicKey" rfl

/-- C6 (failing-input evaluation): the bitstring packing is big-endian
with bit 0 the most significant bit of the first content byte (`0x80`
for the QWAC set, `0xC0` for the QSEAL set) and the extension is always
critical — but the emitted encoding declares a bit length of 16
(`BitLength = int(KeyUsageDecipherOnly) = 256`, i.e. zero unused bits
over two content bytes) instead of the trailing-zero-trimmed count the
standard's named-bit-list rule requires (1 bit for the QWAC set, whose
canonical encoding is `[3, 2, 7, 128]`). -/
theorem keyUsageExtension_declared_bitlength :
    keyUsageExtension [keyUsageDigitalSignature] =
      { oid := [2, 5, 29, 15], critical := true, value := [3, 3, 0, 128, 0] }
    ∧ keyUsageExtension [keyUsageDigitalSignature, keyUsageContentCommitment] =
      { oid := [2, 5, 29, 15], critical := true, value := [3, 3, 0, 192, 0] }
    ∧ derBitStringDeclaredBits (keyUsageExtension [keyUsageDigitalSignature]).value = 16
    ∧ derBitStringDeclaredBits
        (keyUsageExtension [keyUsageDigitalSignature, keyUsageContentCommitment]).value = 16
    ∧ (keyUsageExtension [keyUsageDigitalSignature]).value ≠ [3, 2, 7, 128] := by
  refine ⟨?_, ?_, ?_, ?_, ?_⟩ <;> decide

/-- C8: `subjectKeyIdentifier` returns OID 2.5.29.14, non-critical, with
payload the DER octet-string wrapping (tag 4, length 20) of the 160-bit
SHA-1 digest of the PKCS#1 DER encoding of the public key. The digest
and PKCS#1 encoders are the platform primitives carried by `env`; the
hypothesis records that the digest is 160 bits (20 bytes) long. -/
theorem subjectKeyIdentifier_correct (env : Env) (key : RSAPublicKey)
    (h : (env.sha1Sum (env.marshalPKCS1PublicKey key)).length = 20) :
    subjectKeyIdentifier env key =
      { oid := [2, 5, 29, 14], critical := false,
        value := 4 :: 20 :: env.sha1Sum (env.marshalPKCS1PublicKey key) } := by
  unfold subjectKeyIdentifier derOctetString derLengthBytes
  rw [h]
  simp

/-- Witness for C8: the concrete environment's 20-byte digest. -/
theorem subjectKeyIdentifier_correct_witness :
    subjectKeyIdentifier testEnv testKey.pub =
      { oid := [2, 5, 29, 14], critical := false,
        value := 4 :: 20 :: List.replicate 20 0 } :=
  subjectKeyIdentifier_correct testEnv testKey.pub (by decide)

/-- C4: every successful assembly carries exactly, in order: key-usage
(2.5.29.15, critical); extended-key-usage (2.5.29.37, non-critical) only
when its OID list is non-empty; subject-key-identifier (2.5.29.14,
non-critical); qc-statements (1.3.6.1.5.5.7.1.3, non-critical). Options
are assumed not to touch the extension list (the built-in DNS-name
option does not). -/
theorem assembled_extensions_order (env : Env)
    (countryCode orgName orgID commonName : String) (roles : List Role)
    (qcType : ObjectIdentifier) (pub : RSAPublicKey)
    (opts : List CertificateOption) (req : CertificateRequest)
    (hok : buildCSRRequest env countryCode orgName orgID commonName roles qcType pub opts
      = .ok req)
    (hopts : ∀ opt ∈ opts, ∀ r, (opt r).extraExtensions = r.extraExtensions) :
    ∃ eku, extendedKeyUsageForType qcType = .ok eku ∧
      req.extraExtensions.map (fun e => (e.oid, e.critical)) =
        [([2, 5, 29, 15], true)] ++
        (if eku = [] then [] else [([2, 5, 29, 37], false)]) ++
        [([2, 5, 29, 14], false), ([1, 3, 6, 1, 5, 5, 7, 1, 3], false)] := by
  unfold buildCSRRequest at hok
  split at hok
  · exact Except.noConfusion hok
  next ca hca =>
  split at hok
  · exact Except.noConfusion hok
  next qc hqc =>
  split at hok
  · exact Except.noConfusion hok
  next ku hku =>
  split at hok
  · exact Except.noConfusion hok
  next eku heku =>
  split at hok
  next hlen =>
    split at hok
    · exact Except.noConfusion hok
    next subject hsub =>
    refine ⟨eku, heku, ?_⟩
    simp only [Except.ok.injEq] at hok
    subst hok
    rw [foldl_opts_preserve (fun r => r.extraExtensions) opts hopts]
    have he : ¬eku = [] := fun h => hlen (by simp [h])
    simp [he, keyUsageExtension, extendedKeyUsageExtension, subjectKeyIdentifier,
      qcStatementsExtension, QCStatementsExt]
  next hlen =>
    split at hok
    · exact Except.noConfusion hok
    next subject hsub =>
    refine ⟨eku, heku, ?_⟩
    simp only [Except.ok.injEq] at hok
    subst hok
    rw [foldl_opts_preserve (fun r => r.extraExtensions) opts hopts]
    simp only [ne_eq, not_not, List.length_eq_zero] at hlen
    simp [hlen, keyUsageExtension, subjectKeyIdentifier,
      qcStatementsExtension, QCStatementsExt]

/-- Witness for C4: a concrete QWAC assembly with one DNS-name option. -/
theorem assembled_extensions_order_witness :
    ∃ eku, extendedKeyUsageForType QWACType = .ok eku ∧
      testReqQWAC.extraExtensions.map (fun e => (e.oid, e.critical)) =
        [([2, 5, 29, 15], true)] ++
        (if eku = [] then [] else [([2, 5, 29, 37], false)]) ++
        [([2, 5, 29, 14], false), ([1, 3, 6, 1, 5, 5, 7, 1, 3], false)] :=
  assembled_extensions_order testEnv "GB" "Foo Org" "Foo Org ID" "Foo Name" ["PSP_AI"]
    QWACType testKey.pub [withDNSName "foo.example.com"] testReqQWAC rfl
    (by intro opt hm r
        simp only [List.mem_singleton] at hm
        subst hm
        rfl)

/-- C2: `extendedKeyUsageForType` maps QWAC to exactly
[TLS-Server-Auth, TLS-Client-Auth] in that order and QSEAL to the empty
list; and no extension of a successful QSEAL assembly carries the
extended-key-usage OID 2.5.29.37 at all. -/
theorem extendedKeyUsageForType_correct :
    extendedKeyUsageForType QWACType = .ok [tLSWWWServerAuthUsage, tLSWWWClientAuthUsage]
    ∧ extendedKeyUsageForType QSEALType = .ok []
    ∧ ∀ (env : Env) (countryCode orgName orgID commonName : String)
        (roles : List Role) (pub : RSAPublicKey)
        (opts : List CertificateOption) (req : CertificateRequest),
        buildCSRRequest env countryCode orgName orgID commonName roles QSEALType pub opts
          = .ok req →
        (∀ opt ∈ opts, ∀ r, (opt r).extraExtensions = r.extraExtensions) →
        ∀ e ∈ req.extraExtensions, e.oid ≠ [2, 5, 29, 37] := by
  refine ⟨rfl, rfl, ?_⟩
  intro env countryCode orgName orgID commonName roles pub opts req hok hopts e he
  unfold buildCSRRequest at hok
  split at hok
  · exact Except.noConfusion hok
  next ca hca =>
  split at hok
  · exact Except.noConfusion hok
  next qc hqc =>
  split at hok
  · exact Except.noConfusion hok
  next ku hku =>
  split at hok
  · exact Except.noConfusion hok
  next eku heku =>
  rw [show extendedKeyUsageForType QSEALType = .ok [] from rfl] at heku
  injection heku with heq
  subst heq
  split at hok
  next hlen => exact absurd rfl hlen
  next _hlen =>
  split at hok
  · exact Except.noConfusion hok
  next subject hsub =>
  simp only [Except.ok.injEq] at hok
  subst hok
  rw [foldl_opts_preserve (fun r => r.extraExtensions) opts hopts] at he
  simp only [List.cons_append, List.nil_append, List.mem_cons,
    List.not_mem_nil, or_false] at he
  rcases he with h | h | h <;> simp [h, keyUsageExtension,
    subjectKeyIdentifier, qcStatementsExtension, QCStatementsExt]

/-- Witness for C2: in the concrete QSEAL assembly, the key-usage
extension (a member of the assembled list) does not carry OID
2.5.29.37. -/
theorem extendedKeyUsageForType_correct_witness :
    (keyUsageExtension [keyUsageDigitalSignature, keyUsageContentCommitment]).oid
      ≠ [2, 5, 29, 37] :=
  extendedKeyUsageForType_correct.2.2 testEnv "GB" "Foo Org" "Foo Org ID" "Foo Name"
    ["PSP_AI"] testKey.pub [] testReqQSEAL rfl
    (by intro opt hm; exact absurd hm (List.not_mem_nil opt))
    (keyUsageExtension [keyUsageDigitalSignature, keyUsageContentCommitment])
    (by decide)

/-- C3: the subject of every successful assembly is built from exactly
the four attributes country (2.5.4.6), organization name (2.5.4.10),
organization id (2.5.4.97) and common name (2.5.4.3), in that order,
valued with the supplied strings; the request's raw subject is the
platform marshalling of precisely that list. Options are assumed not to
touch the raw subject (the built-in DNS-name option does not). -/
theorem subject_attributes_correct (env : Env)
    (countryCode orgName orgID commonName : String) (roles : List Role)
    (qcType : ObjectIdentifier) (pub : RSAPublicKey)
    (opts : List CertificateOption) (req : CertificateRequest)
    (hok : buildCSRRequest env countryCode orgName orgID commonName roles qcType pub opts
      = .ok req)
    (hopts : ∀ opt ∈ opts, ∀ r, (opt r).rawSubject = r.rawSubject) :
    (buildSubjectAttributes countryCode orgName commonName orgID).map (fun a => a.type)
      = [[2, 5, 4, 6], [2, 5, 4, 10], [2, 5, 4, 97], [2, 5, 4, 3]]
    ∧ (buildSubjectAttributes countryCode orgName commonName orgID).map (fun a => a.value)
      = [countryCode, orgName, orgID, commonName]
    ∧ env.marshalRDNSequence (buildSubjectAttributes countryCode orgName commonName orgID)
      = .ok req.rawSubject := by
  refine ⟨rfl, rfl, ?_⟩
  unfold buildCSRRequest at hok
  split at hok
  · exact Except.noConfusion hok
  next ca hca =>
  split at hok
  · exact Except.noConfusion hok
  next qc hqc =>
  split at hok
  · exact Except.noConfusion hok
  next ku hku =>
  split at hok
  · exact Except.noConfusion hok
  next eku heku =>
  split at hok
  next hlen =>
    split at hok
    · exact Except.noConfusion hok
    next subject hsub =>
    simp only [Except.ok.injEq] at hok
    subst hok
    rw [foldl_opts_preserve (fun r => r.rawSubject) opts hopts]
    exact hsub
  next hlen =>
    split at hok
    · exact Except.noConfusion hok
    next subject hsub =>
    simp only [Except.ok.injEq] at hok
    subst hok
    rw [foldl_opts_preserve (fun r => r.rawSubject) opts hopts]
    exact hsub

/-- Witness for C3: the concrete QWAC assembly. -/
theorem subject_attributes_correct_witness :
    (buildSubjectAttributes "GB" "Foo Org" "Foo Name" "Foo Org ID").map (fun a => a.type)
      = [[2, 5, 4, 6], [2, 5, 4, 10], [2, 5, 4, 97], [2, 5, 4, 3]]
    ∧ (buildSubjectAttributes "GB" "Foo Org" "Foo Name" "Foo Org ID").map (fun a => a.value)
      = ["GB", "Foo Org", "Foo Org ID", "Foo Name"]
    ∧ testEnv.marshalRDNSequence (buildSubjectAttributes "GB" "Foo Org" "Foo Name" "Foo Org ID")
      = .ok testReqQWAC.rawSubject :=
  subject_attributes_correct testEnv "GB" "Foo Org" "Foo Org ID" "Foo Name" ["PSP_AI"]
    QWACType testKey.pub [withDNSName "foo.example.com"] testReqQWAC rfl
    (by intro opt hm r
        simp only [List.mem_singleton] at hm
        subst hm
        rfl)

/-- C9: `GenerateCSR` asks the platform generator for a 2048-bit RSA key
and delegates to `GenerateCSRWithKey` with the same parameters and
options: a key-generation failure becomes the key-generation-failed
error; otherwise the delegate's bytes or error are forwarded unchanged,
and on success the generated key is returned to the caller. -/
theorem generateCSR_delegates (generateKey : Nat → Except String RSAPrivateKey)
    (env : Env) (countryCode orgName orgID commonName : String)
    (roles : List Role) (qcType : ObjectIdentifier) (opts : List CertificateOption) :
    (∀ e, generateKey 2048 = .error e →
        generateCSR generateKey env countryCode orgName orgID commonName roles qcType opts =
          { csr := none, key := none,
            err := some ("failed to generate key pair: " ++ e) })
    ∧ (∀ key csr, generateKey 2048 = .ok key →
        generateCSRWithKey env countryCode orgName orgID commonName roles qcType
          key.toSigner opts = .ok csr →
        generateCSR generateKey env countryCode orgName orgID commonName roles qcType opts =
          { csr := some csr, key := some key, err := none })
    ∧ (∀ key e, generateKey 2048 = .ok key →
        generateCSRWithKey env countryCode orgName orgID commonName roles qcType
          key.toSigner opts = .error e →
        generateCSR generateKey env countryCode orgName orgID commonName roles qcType opts =
          { csr := none, key := none, err := some e }) := by
  refine ⟨?_, ?_, ?_⟩
  · intro e h
    unfold generateCSR
    simp only [h]
  · intro key csr h1 h2
    unfold generateCSR
    simp only [h1, h2]
  · intro key e h1 h2
    unfold generateCSR
    simp only [h1, h2]

/-- Witness for C9: a concrete generator and environment on which the
delegate succeeds, so the bytes and the generated key are returned. -/
theorem generateCSR_delegates_witness :
    generateCSR (fun _ => .ok testKey) testEnv "GB" "Foo Org" "Foo Org ID" "Foo Name"
        ["PSP_AI"] QWACType [] =
      { csr := some [99], key := some testKey, err := none } :=
  (generateCSR_delegates (fun _ => .ok testKey) testEnv "GB" "Foo Org" "Foo Org ID"
    "Foo Name" ["PSP_AI"] QWACType []).2.1 testKey [99] rfl rfl

/-- C10: whenever `GenerateCSR` reports an error — also when key
generation succeeded but the delegated assembly failed — both the
returned CSR bytes and the returned private key are nil. -/
theorem generateCSR_error_returns_nil (generateKey : Nat → Except String RSAPrivateKey)
    (env : Env) (countryCode orgName orgID commonName : String)
    (roles : List Role) (qcType : ObjectIdentifier) (opts : List CertificateOption)
    (e : String)
    (h : (generateCSR generateKey env countryCode orgName orgID commonName
        roles qcType opts).err = some e) :
    (generateCSR generateKey env countryCode orgName orgID commonName
        roles qcType opts).csr = none
    ∧ (generateCSR generateKey env countryCode orgName orgID commonName
        roles qcType opts).key = none := by
  unfold generateCSR at h ⊢
  cases hk : generateKey 2048
  · simp only [hk] at h ⊢
    exact ⟨trivial, trivial⟩
  next key =>
    cases hw : generateCSRWithKey env countryCode orgName orgID commonName roles qcType
        key.toSigner opts <;> simp only [hk, hw] at h ⊢
    · exact ⟨trivial, trivial⟩
    · simp at h

/-- Witness for C10: key generation succeeds but the delegate rejects the
unknown certificate-type OID 1.2.3, and both bytes and key come back
nil. -/
theorem generateCSR_error_returns_nil_witness :
    (generateCSR (fun _ => .ok testKey) testEnv "GB" "Foo Org" "Foo Org ID" "Foo Name"
        ["PSP_AI"] [1, 2, 3] []).csr = none
    ∧ (generateCSR (fun _ => .ok testKey) testEnv "GB" "Foo Org" "Foo Org ID" "Foo Name"
        ["PSP_AI"] [1, 2, 3] []).key = none :=
  generateCSR_error_returns_nil (fun _ => .ok testKey) testEnv "GB" "Foo Org"
    "Foo Org ID" "Foo Name" ["PSP_AI"] [1, 2, 3] []
    ("unknown QC type: " ++ oidString [1, 2, 3]) rfl

end Eidas
